import Mathlib

/-!
# Verification of the analysis store (`src/store/store.js`)

Shallow embedding of the Zustand store `useAnalysisStore`.  JavaScript
numbers are modelled as `ℚ` (confidences, statistics) and `Int`
(counters); the special value `NaN`, which can arise from the `0/0`
division in the average-confidence recomputation of `addAnalysis`, is
modelled by `Option ℚ` for `averageConfidence` (`none` = `NaN`).
ISO timestamp strings, which the code only ever compares after parsing
them to instants, are modelled as `Nat` instants.  The JS object
`statistics.analysisTypes` is modelled as a total function
`String → Int` with absence identified with `0`, which is faithful
because the code only reads it through `|| 0` and truthiness tests.
Record ids are strings; the generator
`analysis_${Date.now()}_${Math.random()...}` is modelled by passing the
generated string into the action (its session-uniqueness, which the
source obtains from `Date.now`/`Math.random`, becomes an explicit
hypothesis where a claim needs it).  JS object spread `{...a, ...b}` is
modelled with `Option`-valued fields on the update/input structures
(`none` = key absent); keys explicitly set to `undefined` are outside
the model.
-/

/-- A violation entry; the store only ever inspects its `type`. -/
structure Violation where
  type : String
deriving Repr, DecidableEq

/-- An analysis record as stored in `analysisHistory`.  `violations`
absence is identified with the empty list (the code reads it only via
`violations?.length || 0`, `violations?.some` and `forEach`). -/
structure AnalysisRecord where
  id : String
  timestamp : Nat
  type : Option String
  confidence : Option ℚ
  status : Option String
  violations : List Violation
deriving Repr, DecidableEq

/-- The argument of `addAnalysis` (a partial record; spread last in
`{ id: ..., timestamp: ..., ...analysis }`, so present fields win). -/
structure InputRecord where
  id : Option String := none
  timestamp : Option Nat := none
  type : Option String := none
  confidence : Option ℚ := none
  status : Option String := none
  violations : Option (List Violation) := none
deriving Repr, DecidableEq

/-- The `updates` argument of `updateAnalysis`; spread over the old
record, so present fields overwrite. -/
structure Updates where
  id : Option String := none
  timestamp : Option Nat := none
  type : Option String := none
  confidence : Option ℚ := none
  status : Option String := none
  violations : Option (List Violation) := none
deriving Repr, DecidableEq

/-- The `statistics` slice.  `averageConfidence = none` models `NaN`. -/
structure Statistics where
  totalAnalyses : Int
  violationsDetected : Int
  averageConfidence : Option ℚ
  analysisTypes : String → Int

/-- The `filters` slice. -/
structure Filters where
  dateFrom : Option Nat
  dateTo : Option Nat
  violationType : String
  sortBy : String
  sortOrder : String
deriving Repr, DecidableEq

/-- The whole store state. -/
structure State where
  analysisHistory : List AnalysisRecord
  statistics : Statistics
  filters : Filters
  selectedAnalysis : Option AnalysisRecord
  isLoading : Bool
  error : Option String

/-- Initial `statistics` (lines 13–18 and the reset in `clearHistory`). -/
def initialStatistics : Statistics :=
  { totalAnalyses := 0
    violationsDetected := 0
    averageConfidence := some 0
    analysisTypes := fun _ => 0 }

/-- Initial `filters` (lines 19–25, also `resetFilters`). -/
def initialFilters : Filters :=
  { dateFrom := none
    dateTo := none
    violationType := "all"
    sortBy := "date"
    sortOrder := "desc" }

/-- Initial state of the store (lines 12–28). -/
def initialState : State :=
  { analysisHistory := []
    statistics := initialStatistics
    filters := initialFilters
    selectedAnalysis := none
    isLoading := false
    error := none }

/-- Value of `a.confidence || 0`: `undefined` and `0` collapse to `0`,
any other number is itself. -/
def confOrZero (a : AnalysisRecord) : ℚ :=
  match a.confidence with
  | none => 0
  | some c => c

/-- Sum of a list of rationals (`reduce((a, b) => a + b, 0)`). -/
def ratSum (l : List ℚ) : ℚ := l.foldl (fun a b => a + b) 0

/-- Sum of `violations.length` over a history. -/
def violTotal (l : List AnalysisRecord) : Nat :=
  (l.map (fun a => a.violations.length)).sum

/-- The ids of a history, in order. -/
def idsOf (l : List AnalysisRecord) : List String :=
  l.map AnalysisRecord.id

/-- JS truthiness of an optional string (`if (analysis.type)`):
`undefined` and `""` are falsy. -/
def strTruthy (o : Option String) : Bool :=
  match o with
  | none => false
  | some t => t ≠ ""

/-- The record built at the top of `addAnalysis` (lines 33–37):
generated `id` and `timestamp` first, then the caller fields spread
over them. -/
def mkRecord (genId : String) (now : Nat) (p : InputRecord) : AnalysisRecord :=
  { id := p.id.getD genId
    timestamp := p.timestamp.getD now
    type := p.type
    confidence := p.confidence
    status := p.status
    violations := p.violations.getD [] }

/-- Action `addAnalysis` (lines 31–72).  Here `genId` and `now` stand
for the values of the id generator and `new Date()` at call time. -/
def addAnalysis (genId : String) (now : Nat) (p : InputRecord) (s : State) : State :=
  let newAnalysis := mkRecord genId now p
  let updatedHistory := newAnalysis :: s.analysisHistory
  let stats1 : Statistics :=
    { s.statistics with
      totalAnalyses := s.statistics.totalAnalyses + 1
      violationsDetected :=
        s.statistics.violationsDetected + ((p.violations.getD []).length : Int) }
  let stats2 : Statistics :=
    if strTruthy p.type then
      match p.type with
      | some t =>
          { stats1 with
            analysisTypes := fun t2 =>
              if t2 = t then stats1.analysisTypes t + 1 else stats1.analysisTypes t2 }
      | none => stats1
    else stats1
  let stats3 : Statistics :=
    match p.confidence with
    | none => stats2
    | some c =>
        let allConfidences :=
          ((s.analysisHistory.map confOrZero) ++ [c]).filter (fun x => 0 < x)
        { stats2 with
          averageConfidence :=
            -- the source divides with no emptiness guard here; `0/0 = NaN`
            if allConfidences.length = 0 then none
            else some (ratSum allConfidences / (allConfidences.length : ℚ)) }
  { s with analysisHistory := updatedHistory, statistics := stats3 }

/-- Action `removeAnalysis` (lines 74–116). -/
def removeAnalysis (analysisId : String) (s : State) : State :=
  match s.analysisHistory.find? (fun a => a.id = analysisId) with
  | none => s
  | some analysis =>
      let updatedHistory := s.analysisHistory.filter (fun a => ¬ a.id = analysisId)
      let stats1 : Statistics :=
        { s.statistics with
          totalAnalyses := max 0 (s.statistics.totalAnalyses - 1)
          violationsDetected :=
            max 0 (s.statistics.violationsDetected - (analysis.violations.length : Int)) }
      let stats2 : Statistics :=
        if strTruthy analysis.type then
          match analysis.type with
          | some t =>
              if stats1.analysisTypes t ≠ 0 then
                { stats1 with
                  analysisTypes := fun t2 =>
                    if t2 = t then stats1.analysisTypes t - 1 else stats1.analysisTypes t2 }
              else stats1
          | none => stats1
        else stats1
      let stats3 : Statistics :=
        if updatedHistory.length > 0 then
          let allConfidences := (updatedHistory.map confOrZero).filter (fun x => 0 < x)
          { stats2 with
            averageConfidence :=
              if allConfidences.length > 0 then
                some (ratSum allConfidences / (allConfidences.length : ℚ))
              else some 0 }
        else { stats2 with averageConfidence := some 0 }
      { s with
        analysisHistory := updatedHistory
        statistics := stats3
        selectedAnalysis :=
          match s.selectedAnalysis with
          | some sel => if sel.id = analysisId then none else some sel
          | none => none }

/-- Shallow merge of `updates` over `oldAnalysis` via object spread (line 124). -/
def applyUpdates (a : AnalysisRecord) (u : Updates) : AnalysisRecord :=
  { id := u.id.getD a.id
    timestamp := u.timestamp.getD a.timestamp
    type := match u.type with | some t => some t | none => a.type
    confidence := match u.confidence with | some c => some c | none => a.confidence
    status := match u.status with | some st => some st | none => a.status
    violations := u.violations.getD a.violations }

/-- Replace the first element satisfying `p` by `v`
(`newHistory[analysisIndex] = updatedAnalysis`, lines 125–126). -/
def setFirst (p : α → Bool) (v : α) : List α → List α
  | [] => []
  | x :: xs => if p x then v :: xs else x :: setFirst p v xs

/-- Action `updateAnalysis` (lines 118–148).  The source takes the record at
`findIndex` (the first id match, `-1` rendered as `find? = none`). -/
def updateAnalysis (analysisId : String) (u : Updates) (s : State) : State :=
  match s.analysisHistory.find? (fun a => a.id = analysisId) with
  | none => s
  | some oldAnalysis =>
      let updatedAnalysis := applyUpdates oldAnalysis u
      let newHistory := setFirst (fun a => a.id = analysisId) updatedAnalysis s.analysisHistory
      let updatedStatistics : Statistics :=
        match u.confidence with
        | some c =>
            if oldAnalysis.confidence ≠ some c then
              let allConfidences := (newHistory.map confOrZero).filter (fun x => 0 < x)
              { s.statistics with
                averageConfidence :=
                  if allConfidences.length > 0 then
                    some (ratSum allConfidences / (allConfidences.length : ℚ))
                  else some 0 }
            else s.statistics
        | none => s.statistics
      { s with
        analysisHistory := newHistory
        statistics := updatedStatistics
        selectedAnalysis :=
          match s.selectedAnalysis with
          | some sel => if sel.id = analysisId then some updatedAnalysis else some sel
          | none => none }

/-- Action `clearHistory` (lines 150–160): zustand `set` with a plain object
shallow-merges, so `filters`, `isLoading`, `error` are untouched. -/
def clearHistory (s : State) : State :=
  { s with
    analysisHistory := []
    statistics := initialStatistics
    selectedAnalysis := none }

/-- The argument of `setFilters` (partial filters). -/
structure InputFilters where
  dateFrom : Option (Option Nat) := none
  dateTo : Option (Option Nat) := none
  violationType : Option String := none
  sortBy : Option String := none
  sortOrder : Option String := none
deriving Repr, DecidableEq

/-- Action `setFilters` (lines 163–166). -/
def setFilters (nf : InputFilters) (s : State) : State :=
  { s with
    filters :=
      { dateFrom := nf.dateFrom.getD s.filters.dateFrom
        dateTo := nf.dateTo.getD s.filters.dateTo
        violationType := nf.violationType.getD s.filters.violationType
        sortBy := nf.sortBy.getD s.filters.sortBy
        sortOrder := nf.sortOrder.getD s.filters.sortOrder } }

/-- Action `resetFilters` (lines 168–177). -/
def resetFilters (s : State) : State :=
  { s with filters := initialFilters }

/-- Action `setSelectedAnalysis` (lines 180–183). -/
def setSelectedAnalysis (a : Option AnalysisRecord) (s : State) : State :=
  { s with selectedAnalysis := a }

/-- Action `clearSelectedAnalysis` (lines 185–188). -/
def clearSelectedAnalysis (s : State) : State :=
  { s with selectedAnalysis := none }

/-- Action `setLoading` (lines 191–194). -/
def setLoading (b : Bool) (s : State) : State :=
  { s with isLoading := b }

/-- Action `setError` (lines 196–199). -/
def setError (e : Option String) (s : State) : State :=
  { s with error := e }

/-- Action `clearError` (lines 201–204). -/
def clearError (s : State) : State :=
  { s with error := none }

/-- Model of `a.localeCompare(b)` for the plain ASCII statuses the store sorts:
sign of lexicographic comparison. -/
def localeCompare (s1 s2 : String) : Int :=
  match compare s1 s2 with
  | Ordering.lt => -1
  | Ordering.eq => 0
  | Ordering.gt => 1

/-- The comparator of `getFilteredHistory` (lines 231–247), including
the `asc`/`desc` direction flip. -/
def sortComparison (filters : Filters) (a b : AnalysisRecord) : ℚ :=
  let comparison : ℚ :=
    if filters.sortBy = "confidence" then confOrZero a - confOrZero b
    else if filters.sortBy = "status" then
      (localeCompare (a.status.getD "") (b.status.getD "") : ℚ)
    else (a.timestamp : ℚ) - (b.timestamp : ℚ)
  if filters.sortOrder = "asc" then comparison else -comparison

/-- Insert `x` before the first element `y` that does not strictly
precede it (`cmp y x < 0`), i.e. a stable sort insertion step. -/
def insertByCmp (cmp : α → α → ℚ) (x : α) : List α → List α
  | [] => [x]
  | y :: ys => if cmp y x < 0 then y :: insertByCmp cmp x ys else x :: y :: ys

/-- Stable comparator sort, modelling `Array.prototype.sort` (stable
per ES2019) with a consistent comparator. -/
def sortByCmp (cmp : α → α → ℚ) : List α → List α
  | [] => []
  | x :: xs => insertByCmp cmp x (sortByCmp cmp xs)

/-- Getter `getFilteredHistory` (lines 207–250). -/
def getFilteredHistory (s : State) : List AnalysisRecord :=
  let f0 := s.analysisHistory
  let f1 :=
    match s.filters.dateFrom with
    | some d => f0.filter (fun a => d ≤ a.timestamp)
    | none => f0
  let f2 :=
    match s.filters.dateTo with
    | some d => f1.filter (fun a => a.timestamp ≤ d)
    | none => f1
  let f3 :=
    if s.filters.violationType ≠ "all" then
      f2.filter (fun a => a.violations.any (fun v => v.type = s.filters.violationType))
    else f2
  sortByCmp (sortComparison s.filters) f3

/-- One call to a store action; `add` carries the generated id and the
clock value observed at that call. -/
inductive StoreAction where
  | add (genId : String) (now : Nat) (p : InputRecord)
  | remove (analysisId : String)
  | update (analysisId : String) (u : Updates)
  | clear
  | setFilters (nf : InputFilters)
  | resetFilters
  | setSelected (a : Option AnalysisRecord)
  | clearSelected
  | setLoading (b : Bool)
  | setError (e : Option String)
  | clearError

/-- Dispatch one action on the state. -/
def step (s : State) (a : StoreAction) : State :=
  match a with
  | StoreAction.add genId now p => addAnalysis genId now p s
  | StoreAction.remove analysisId => removeAnalysis analysisId s
  | StoreAction.update analysisId u => updateAnalysis analysisId u s
  | StoreAction.clear => clearHistory s
  | StoreAction.setFilters nf => setFilters nf s
  | StoreAction.resetFilters => resetFilters s
  | StoreAction.setSelected a => setSelectedAnalysis a s
  | StoreAction.clearSelected => clearSelectedAnalysis s
  | StoreAction.setLoading b => setLoading b s
  | StoreAction.setError e => setError e s
  | StoreAction.clearError => clearError s

/-- Run a sequence of actions from a state. -/
def runFrom (s : State) (acts : List StoreAction) : State :=
  acts.foldl step s

/-- Run a sequence of actions from the initial state. -/
def run (acts : List StoreAction) : State :=
  runFrom initialState acts

/-- Predicate `idSafeB s a`: the action does not forge or override
record ids: the generated id of an `add` call is fresh for the current
history and its payload does not carry its own `id` key, and an
payload of an `update` call does not carry an `id` key.  This is exactly
the id discipline the spec ascribes to the store (`id` is generated,
unique, and never changed). -/
def idSafeB (s : State) (a : StoreAction) : Bool :=
  match a with
  | StoreAction.add genId _ p =>
      decide (p.id = none) && decide (genId ∉ idsOf s.analysisHistory)
  | StoreAction.update _ u => decide (u.id = none)
  | _ => true

/-- Holds when the `updates` payload of the action carries no `violations` key. -/
def keepsViolationsB (a : StoreAction) : Bool :=
  match a with
  | StoreAction.update _ u => decide (u.violations = none)
  | _ => true

/-- A sequence of actions, each admissible (per `ok`) in the state in
which it runs. -/
inductive Trace (ok : State → StoreAction → Prop) : State → List StoreAction → Prop
  | nil (s : State) : Trace ok s []
  | cons {s : State} {a : StoreAction} {rest : List StoreAction} :
      ok s a → Trace ok (step s a) rest → Trace ok s (a :: rest)

def InvC1 (s : State) : Prop :=
  s.statistics.totalAnalyses = (s.analysisHistory.length : Int) ∧
  (idsOf s.analysisHistory).Nodup

/-- Actions used by the C1 witness: one of each mutating action, with
store-generated ids only. -/
def safeActsC1 : List StoreAction :=
  [StoreAction.add "analysis_1" 0 { confidence := some (1/2) },
   StoreAction.add "analysis_2" 1 { type := some "text", violations := some [⟨"spam"⟩] },
   StoreAction.update "analysis_2" { status := some "flagged" },
   StoreAction.remove "analysis_1",
   StoreAction.clear]

/-- C1 counterexample: update the id of a record to collide with the id
of another record, then remove that id; the remove deletes both records but
decrements `totalAnalyses` once. -/
def collideActs : List StoreAction :=
  [StoreAction.add "analysis_1" 0 {},
   StoreAction.add "analysis_2" 1 {},
   StoreAction.update "analysis_2" { id := some "analysis_1" },
   StoreAction.remove "analysis_1"]

def InvC2 (s : State) : Prop :=
  s.statistics.violationsDetected = (violTotal s.analysisHistory : Int) ∧
  (idsOf s.analysisHistory).Nodup

/-- Actions used by the C2 witness. -/
def safeActsC2 : List StoreAction :=
  [StoreAction.add "analysis_1" 0 { violations := some [⟨"hate"⟩, ⟨"spam"⟩] },
   StoreAction.add "analysis_2" 1 { confidence := some (3/4) },
   StoreAction.update "analysis_1" { confidence := some (1/4) },
   StoreAction.remove "analysis_1",
   StoreAction.clear]

/-- C2 counterexample: an update that replaces the `violations` list of a record
list leaves `violationsDetected` stale. -/
def violChangeActs : List StoreAction :=
  [StoreAction.add "analysis_1" 0 {},
   StoreAction.update "analysis_1" { violations := some [⟨"spam"⟩] }]

def NonnegStats (st : Statistics) : Prop :=
  0 ≤ st.totalAnalyses ∧ 0 ≤ st.violationsDetected ∧ ∀ t, 0 ≤ st.analysisTypes t

/-- State used by the C5 witness. -/
def stateC5 : State := run [StoreAction.add "analysis_1" 0 { type := some "text" }]

/-- Record used by the C6 witness. -/
def recC6 : AnalysisRecord :=
  { id := "analysis_1", timestamp := 10, type := some "img", confidence := none,
    status := none, violations := [⟨"nsfw"⟩] }

/-- State used by the C6 witness. -/
def stateC6 : State :=
  addAnalysis "analysis_1" 10 { type := some "img", violations := some [⟨"nsfw"⟩] }
    initialState

/-- First record of the C8 spec scenario (`T1 = 100`). -/
def sortRecordPass : AnalysisRecord :=
  { id := "1", timestamp := 100, type := none, confidence := some (9/10),
    status := some "pass", violations := [] }

/-- Second record of the C8 spec scenario (`T2 = 200 > T1`). -/
def sortRecordFail : AnalysisRecord :=
  { id := "2", timestamp := 200, type := none, confidence := some (4/10),
    status := some "fail", violations := [] }

/-- Filters used by the C8 scenario. -/
def sortFilters (sb so : String) : Filters :=
  { dateFrom := none, dateTo := none, violationType := "all", sortBy := sb, sortOrder := so }

/-- State of the C8 scenario. -/
def sortScenario (sb so : String) : State :=
  { analysisHistory := [sortRecordPass, sortRecordFail]
    statistics := initialStatistics
    filters := sortFilters sb so
    selectedAnalysis := none
    isLoading := false
    error := none }

/-- Records and states used by the C9 witness. -/
def recC9 : AnalysisRecord :=
  { id := "analysis_1", timestamp := 0, type := none, confidence := some 1,
    status := none, violations := [] }

def recC9b : AnalysisRecord :=
  { id := "analysis_2", timestamp := 1, type := none, confidence := none,
    status := some "pending", violations := [] }

def stateC9 : State :=
  { analysisHistory := [recC9, recC9b]
    statistics := initialStatistics
    filters := initialFilters
    selectedAnalysis := some recC9
    isLoading := false
    error := none }

def stateC9b : State :=
  { analysisHistory := [recC9, recC9b]
    statistics := initialStatistics
    filters := initialFilters
    selectedAnalysis := some recC9b
    isLoading := false
    error := none }

/-- Records and state used by the C10 witness: two records sharing one
id, with consistent statistics. -/
def dupRec1 : AnalysisRecord :=
  { id := "dup", timestamp := 0, type := none, confidence := none, status := none,
    violations := [⟨"spam"⟩] }

def dupRec2 : AnalysisRecord :=
  { id := "dup", timestamp := 1, type := none, confidence := none, status := none,
    violations := [⟨"hate"⟩, ⟨"spam"⟩] }

def dupStats : Statistics :=
  { totalAnalyses := 2, violationsDetected := 3, averageConfidence := some 0,
    analysisTypes := fun _ => 0 }

def dupState : State :=
  { analysisHistory := [dupRec1, dupRec2]
    statistics := dupStats
    filters := initialFilters
    selectedAnalysis := none
    isLoading := false
    error := none }

theorem addAnalysis_history (g : String) (n : Nat) (p : InputRecord) (s : State) :
    (addAnalysis g n p s).analysisHistory = mkRecord g n p :: s.analysisHistory := rfl

theorem addAnalysis_total (g : String) (n : Nat) (p : InputRecord) (s : State) :
    (addAnalysis g n p s).statistics.totalAnalyses = s.statistics.totalAnalyses + 1 := by
  unfold addAnalysis
  cases p.confidence <;> cases p.type <;> simp [strTruthy] <;> split_ifs <;> rfl

theorem addAnalysis_viol (g : String) (n : Nat) (p : InputRecord) (s : State) :
    (addAnalysis g n p s).statistics.violationsDetected
      = s.statistics.violationsDetected + ((p.violations.getD []).length : Int) := by
  unfold addAnalysis
  cases p.confidence <;> cases p.type <;> simp [strTruthy] <;> split_ifs <;> rfl

theorem addAnalysis_types (g : String) (n : Nat) (p : InputRecord) (s : State) (t : String) :
    (addAnalysis g n p s).statistics.analysisTypes t = s.statistics.analysisTypes t ∨
    (addAnalysis g n p s).statistics.analysisTypes t = s.statistics.analysisTypes t + 1 := by
  unfold addAnalysis
  cases hc : p.confidence <;> cases ht : p.type <;> simp [strTruthy]
  all_goals split_ifs <;> try simp_all
  all_goals rename_i tv h; all_goals by_cases htv : t = tv <;> simp [htv]

theorem addAnalysis_selected (g : String) (n : Nat) (p : InputRecord) (s : State) :
    (addAnalysis g n p s).selectedAnalysis = s.selectedAnalysis := rfl

theorem removeAnalysis_noop (aid : String) (s : State)
    (h : s.analysisHistory.find? (fun a => a.id = aid) = none) :
    removeAnalysis aid s = s := by
  unfold removeAnalysis
  rw [h]

theorem removeAnalysis_history (aid : String) (s : State) (A : AnalysisRecord)
    (h : s.analysisHistory.find? (fun a => a.id = aid) = some A) :
    (removeAnalysis aid s).analysisHistory
      = s.analysisHistory.filter (fun a => ¬ a.id = aid) := by
  unfold removeAnalysis
  rw [h]

theorem removeAnalysis_total (aid : String) (s : State) (A : AnalysisRecord)
    (h : s.analysisHistory.find? (fun a => a.id = aid) = some A) :
    (removeAnalysis aid s).statistics.totalAnalyses
      = max 0 (s.statistics.totalAnalyses - 1) := by
  unfold removeAnalysis
  rw [h]
  cases ht : A.type <;> simp [strTruthy, ht] <;> split_ifs <;> rfl

theorem removeAnalysis_viol (aid : String) (s : State) (A : AnalysisRecord)
    (h : s.analysisHistory.find? (fun a => a.id = aid) = some A) :
    (removeAnalysis aid s).statistics.violationsDetected
      = max 0 (s.statistics.violationsDetected - (A.violations.length : Int)) := by
  unfold removeAnalysis
  rw [h]
  cases ht : A.type <;> simp [strTruthy, ht] <;> split_ifs <;> rfl

theorem removeAnalysis_types (aid : String) (s : State) (A : AnalysisRecord)
    (h : s.analysisHistory.find? (fun a => a.id = aid) = some A) (t : String) :
    (removeAnalysis aid s).statistics.analysisTypes t = s.statistics.analysisTypes t ∨
    ((removeAnalysis aid s).statistics.analysisTypes t = s.statistics.analysisTypes t - 1 ∧
      s.statistics.analysisTypes t ≠ 0) := by
  unfold removeAnalysis
  rw [h]
  cases ht : A.type with
  | none =>
      simp only [strTruthy, ht]
      split_ifs <;> simp
  | some tv =>
      simp only [strTruthy, ht]
      by_cases hemp : tv = ""
      · simp only [hemp]
        split_ifs <;> simp_all
      · split_ifs <;> try simp
        all_goals by_cases htv : t = tv
        all_goals simp_all

theorem removeAnalysis_selected (aid : String) (s : State) (A : AnalysisRecord)
    (h : s.analysisHistory.find? (fun a => a.id = aid) = some A) :
    (removeAnalysis aid s).selectedAnalysis
      = match s.selectedAnalysis with
        | some sel => if sel.id = aid then none else some sel
        | none => none := by
  unfold removeAnalysis
  rw [h]

theorem updateAnalysis_noop (aid : String) (u : Updates) (s : State)
    (h : s.analysisHistory.find? (fun a => a.id = aid) = none) :
    updateAnalysis aid u s = s := by
  unfold updateAnalysis
  rw [h]

theorem updateAnalysis_history (aid : String) (u : Updates) (s : State) (old : AnalysisRecord)
    (h : s.analysisHistory.find? (fun a => a.id = aid) = some old) :
    (updateAnalysis aid u s).analysisHistory
      = setFirst (fun a => a.id = aid) (applyUpdates old u) s.analysisHistory := by
  unfold updateAnalysis
  rw [h]

theorem updateAnalysis_total (aid : String) (u : Updates) (s : State) (old : AnalysisRecord)
    (h : s.analysisHistory.find? (fun a => a.id = aid) = some old) :
    (updateAnalysis aid u s).statistics.totalAnalyses = s.statistics.totalAnalyses := by
  unfold updateAnalysis
  rw [h]
  cases u.confidence <;> simp <;> split_ifs <;> rfl

theorem updateAnalysis_viol (aid : String) (u : Updates) (s : State) (old : AnalysisRecord)
    (h : s.analysisHistory.find? (fun a => a.id = aid) = some old) :
    (updateAnalysis aid u s).statistics.violationsDetected
      = s.statistics.violationsDetected := by
  unfold updateAnalysis
  rw [h]
  cases u.confidence <;> simp <;> split_ifs <;> rfl

theorem updateAnalysis_types (aid : String) (u : Updates) (s : State) (old : AnalysisRecord)
    (h : s.analysisHistory.find? (fun a => a.id = aid) = some old) :
    (updateAnalysis aid u s).statistics.analysisTypes = s.statistics.analysisTypes := by
  unfold updateAnalysis
  rw [h]
  cases u.confidence <;> simp <;> split_ifs <;> rfl

theorem updateAnalysis_selected (aid : String) (u : Updates) (s : State) (old : AnalysisRecord)
    (h : s.analysisHistory.find? (fun a => a.id = aid) = some old) :
    (updateAnalysis aid u s).selectedAnalysis
      = match s.selectedAnalysis with
        | some sel => if sel.id = aid then some (applyUpdates old u) else some sel
        | none => none := by
  unfold updateAnalysis
  rw [h]

theorem setFirst_length (p : α → Bool) (v : α) (l : List α) :
    (setFirst p v l).length = l.length := by
  induction l with
  | nil => rfl
  | cons x xs ih =>
      unfold setFirst
      split <;> simp [ih]

theorem map_setFirst (f : α → β) (p : α → Bool) (v w : α) (l : List α)
    (hfind : l.find? p = some w) (hv : f v = f w) :
    (setFirst p v l).map f = l.map f := by
  induction l with
  | nil => simp at hfind
  | cons x xs ih =>
      by_cases hx : p x
      · rw [List.find?_cons_of_pos _ hx] at hfind
        injection hfind with hw
        subst hw
        unfold setFirst
        simp [hx, hv]
      · rw [List.find?_cons_of_neg _ hx] at hfind
        unfold setFirst
        simp [hx, ih hfind]

theorem find?_setFirst (p : α → Bool) (v w : α) (l : List α)
    (hfind : l.find? p = some w) (hv : p v = true) :
    (setFirst p v l).find? p = some v := by
  induction l with
  | nil => simp at hfind
  | cons x xs ih =>
      by_cases hx : p x
      · unfold setFirst
        simp only [hx, if_true]
        rw [List.find?_cons_of_pos _ hv]
      · rw [List.find?_cons_of_neg _ hx] at hfind
        unfold setFirst
        simp only [hx, if_false, Bool.false_eq_true]
        rw [List.find?_cons_of_neg _ hx]
        exact ih hfind

theorem violTotal_cons (x : AnalysisRecord) (xs : List AnalysisRecord) :
    violTotal (x :: xs) = x.violations.length + violTotal xs := by
  simp [violTotal]

theorem nodup_ids_filter (q : AnalysisRecord → Bool) (l : List AnalysisRecord)
    (h : (idsOf l).Nodup) : (idsOf (l.filter q)).Nodup :=
  h.sublist ((l.filter_sublist).map AnalysisRecord.id)

/-- With pairwise-distinct ids, removing an id found in the history
removes exactly one record: the lengths and violation totals match up. -/
theorem remove_split (aid : String) (A : AnalysisRecord) (l : List AnalysisRecord)
    (hnd : (idsOf l).Nodup) (hfind : l.find? (fun a => a.id = aid) = some A) :
    (l.filter (fun a => ¬ a.id = aid)).length + 1 = l.length ∧
    violTotal (l.filter (fun a => ¬ a.id = aid)) + A.violations.length = violTotal l := by
  induction l with
  | nil => simp at hfind
  | cons x xs ih =>
      rw [idsOf, List.map_cons, List.nodup_cons] at hnd
      by_cases hx : x.id = aid
      · rw [List.find?_cons_of_pos _ (by simp [hx])] at hfind
        injection hfind with hw
        subst hw
        have hnomatch : ∀ a ∈ xs, a.id ≠ aid := by
          intro a ha haid
          apply hnd.1
          have hmem := List.mem_map_of_mem AnalysisRecord.id ha
          rw [haid, ← hx] at hmem
          exact hmem
        have hxs : xs.filter (fun a => ¬ a.id = aid) = xs := by
          rw [List.filter_eq_self]
          intro a ha
          simpa using hnomatch a ha
        constructor
        · rw [List.filter_cons, if_neg (by simp [hx]), hxs]
          simp
        · rw [List.filter_cons, if_neg (by simp [hx]), hxs, violTotal_cons]
          omega
      · rw [List.find?_cons_of_neg _ (by simp [hx])] at hfind
        obtain ⟨h1, h2⟩ := ih hnd.2 hfind
        constructor
        · rw [List.filter_cons, if_pos (by simp [hx])]
          simp only [List.length_cons]
          omega
        · rw [List.filter_cons, if_pos (by simp [hx])]
          rw [violTotal_cons, violTotal_cons]
          omega

theorem runFrom_cons (s : State) (a : StoreAction) (rest : List StoreAction) :
    runFrom s (a :: rest) = runFrom (step s a) rest := rfl

theorem trace_preserve (ok : State → StoreAction → Prop) (P : State → Prop)
    (hstep : ∀ s a, P s → ok s a → P (step s a)) :
    ∀ acts s, Trace ok s acts → P s → P (runFrom s acts) := by
  intro acts
  induction acts with
  | nil => intro s _ h; exact h
  | cons a rest ih =>
      intro s htr hP
      cases htr with
      | cons hok htr2 => exact ih _ htr2 (hstep _ _ hP hok)

theorem run_preserve (P : State → Prop)
    (hstep : ∀ s a, P s → P (step s a)) :
    ∀ acts s, P s → P (runFrom s acts) := by
  intro acts
  induction acts with
  | nil => intro s h; exact h
  | cons a rest ih => intro s hP; exact ih _ (hstep _ _ hP)

theorem invC1_initial : InvC1 initialState := by
  constructor <;> simp [initialState, initialStatistics, idsOf]

theorem invC1_step (s : State) (a : StoreAction)
    (h : InvC1 s) (hok : idSafeB s a = true) : InvC1 (step s a) := by
  obtain ⟨htot, hnd⟩ := h
  cases a with
  | add genId now p =>
      simp only [idSafeB, Bool.and_eq_true, decide_eq_true_eq] at hok
      obtain ⟨hpid, hfresh⟩ := hok
      constructor
      · show (addAnalysis genId now p s).statistics.totalAnalyses
            = ((addAnalysis genId now p s).analysisHistory.length : Int)
        rw [addAnalysis_total, addAnalysis_history, htot]
        simp
      · show (idsOf (addAnalysis genId now p s).analysisHistory).Nodup
        rw [addAnalysis_history, idsOf, List.map_cons, List.nodup_cons]
        refine ⟨?_, hnd⟩
        have hfresh2 : genId ∉ List.map AnalysisRecord.id s.analysisHistory := by
          simpa [idsOf] using hfresh
        simpa [mkRecord, hpid] using hfresh2
  | remove aid =>
      show InvC1 (removeAnalysis aid s)
      cases hf : s.analysisHistory.find? (fun a => a.id = aid) with
      | none => rw [removeAnalysis_noop aid s hf]; exact ⟨htot, hnd⟩
      | some A =>
          obtain ⟨hlen, _⟩ := remove_split aid A s.analysisHistory hnd hf
          constructor
          · rw [removeAnalysis_total aid s A hf, removeAnalysis_history aid s A hf, htot]
            omega
          · rw [removeAnalysis_history aid s A hf]
            exact nodup_ids_filter _ _ hnd
  | update aid u =>
      simp only [idSafeB, decide_eq_true_eq] at hok
      show InvC1 (updateAnalysis aid u s)
      cases hf : s.analysisHistory.find? (fun a => a.id = aid) with
      | none => rw [updateAnalysis_noop aid u s hf]; exact ⟨htot, hnd⟩
      | some old =>
          have hid : (applyUpdates old u).id = old.id := by
            simp [applyUpdates, hok]
          have hmap : idsOf ((updateAnalysis aid u s).analysisHistory)
              = idsOf s.analysisHistory := by
            rw [updateAnalysis_history aid u s old hf, idsOf, idsOf]
            exact map_setFirst AnalysisRecord.id _ _ old _ hf hid
          constructor
          · rw [updateAnalysis_total aid u s old hf, htot]
            have : (updateAnalysis aid u s).analysisHistory.length
                = s.analysisHistory.length := by
              have := congrArg List.length hmap
              simpa [idsOf] using this
            rw [this]
          · rw [hmap]; exact hnd
  | clear =>
      constructor <;> simp [step, clearHistory, initialStatistics, idsOf]
  | setFilters nf => exact ⟨htot, hnd⟩
  | resetFilters => exact ⟨htot, hnd⟩
  | setSelected a0 => exact ⟨htot, hnd⟩
  | clearSelected => exact ⟨htot, hnd⟩
  | setLoading b => exact ⟨htot, hnd⟩
  | setError e => exact ⟨htot, hnd⟩
  | clearError => exact ⟨htot, hnd⟩

/-- C1 (amended): for every sequence of store actions from the initial
state in which generated ids are fresh and neither `addAnalysis`
payloads nor `updateAnalysis` updates carry an `id` key, after each
call `statistics.totalAnalyses` equals the length of
`analysisHistory`. -/
theorem totalAnalyses_eq_history_length_of_safe_trace (acts : List StoreAction)
    (h : Trace (fun s a => idSafeB s a = true) initialState acts) :
    (run acts).statistics.totalAnalyses = ((run acts).analysisHistory.length : Int) :=
  (trace_preserve _ InvC1 invC1_step acts initialState h invC1_initial).1

/-- C1 witness. -/
theorem totalAnalyses_eq_history_length_of_safe_trace_witness :
    (run safeActsC1).statistics.totalAnalyses
      = ((run safeActsC1).analysisHistory.length : Int) :=
  totalAnalyses_eq_history_length_of_safe_trace safeActsC1
    (Trace.cons (by decide) (Trace.cons (by decide) (Trace.cons (by decide)
      (Trace.cons (by decide) (Trace.cons (by decide) (Trace.nil _))))))

/-- C1 counterexample: after `collideActs` (an `updateAnalysis` whose
updates overwrite a record id to collide with another record, then a
`removeAnalysis` of that id) `statistics.totalAnalyses` is 1 while
`analysisHistory` is empty. -/
theorem totalAnalyses_breaks_after_id_collision :
    (run collideActs).statistics.totalAnalyses
      ≠ ((run collideActs).analysisHistory.length : Int) := by decide

theorem invC2_initial : InvC2 initialState := by
  constructor <;> simp [initialState, initialStatistics, idsOf, violTotal]

theorem invC2_step (s : State) (a : StoreAction)
    (h : InvC2 s) (hok : (idSafeB s a && keepsViolationsB a) = true) : InvC2 (step s a) := by
  obtain ⟨hv, hnd⟩ := h
  rw [Bool.and_eq_true] at hok
  obtain ⟨hok1, hok2⟩ := hok
  cases a with
  | add genId now p =>
      simp only [idSafeB, Bool.and_eq_true, decide_eq_true_eq] at hok1
      obtain ⟨hpid, hfresh⟩ := hok1
      constructor
      · show (addAnalysis genId now p s).statistics.violationsDetected
            = (violTotal (addAnalysis genId now p s).analysisHistory : Int)
        rw [addAnalysis_viol, addAnalysis_history, hv, violTotal_cons]
        have : (mkRecord genId now p).violations = p.violations.getD [] := rfl
        rw [this]
        push_cast
        ring
      · show (idsOf (addAnalysis genId now p s).analysisHistory).Nodup
        rw [addAnalysis_history, idsOf, List.map_cons, List.nodup_cons]
        refine ⟨?_, hnd⟩
        have hfresh2 : genId ∉ List.map AnalysisRecord.id s.analysisHistory := by
          simpa [idsOf] using hfresh
        simpa [mkRecord, hpid] using hfresh2
  | remove aid =>
      show InvC2 (removeAnalysis aid s)
      cases hf : s.analysisHistory.find? (fun a => a.id = aid) with
      | none => rw [removeAnalysis_noop aid s hf]; exact ⟨hv, hnd⟩
      | some A =>
          obtain ⟨_, hsplit⟩ := remove_split aid A s.analysisHistory hnd hf
          constructor
          · rw [removeAnalysis_viol aid s A hf, removeAnalysis_history aid s A hf, hv]
            omega
          · rw [removeAnalysis_history aid s A hf]
            exact nodup_ids_filter _ _ hnd
  | update aid u =>
      simp only [idSafeB, decide_eq_true_eq] at hok1
      simp only [keepsViolationsB, decide_eq_true_eq] at hok2
      show InvC2 (updateAnalysis aid u s)
      cases hf : s.analysisHistory.find? (fun a => a.id = aid) with
      | none => rw [updateAnalysis_noop aid u s hf]; exact ⟨hv, hnd⟩
      | some old =>
          have hid : (applyUpdates old u).id = old.id := by
            simp [applyUpdates, hok1]
          have hviols : (fun a : AnalysisRecord => a.violations.length) (applyUpdates old u)
              = (fun a : AnalysisRecord => a.violations.length) old := by
            simp [applyUpdates, hok2]
          constructor
          · rw [updateAnalysis_viol aid u s old hf, hv,
              updateAnalysis_history aid u s old hf]
            unfold violTotal
            rw [map_setFirst _ _ _ old _ hf hviols]
          · rw [updateAnalysis_history aid u s old hf, idsOf,
              map_setFirst AnalysisRecord.id _ _ old _ hf hid]
            exact hnd
  | clear =>
      constructor <;> simp [step, clearHistory, initialStatistics, idsOf, violTotal]
  | setFilters nf => exact ⟨hv, hnd⟩
  | resetFilters => exact ⟨hv, hnd⟩
  | setSelected a0 => exact ⟨hv, hnd⟩
  | clearSelected => exact ⟨hv, hnd⟩
  | setLoading b => exact ⟨hv, hnd⟩
  | setError e => exact ⟨hv, hnd⟩
  | clearError => exact ⟨hv, hnd⟩

/-- C2 (amended): for every sequence of store actions from the initial
state in which generated ids are fresh and `updateAnalysis` updates
carry neither an `id` key nor a `violations` key, after each call
`statistics.violationsDetected` equals the sum of the lengths of the
`violations` lists over `analysisHistory`. -/
theorem violationsDetected_eq_violTotal_of_safe_trace (acts : List StoreAction)
    (h : Trace (fun s a => (idSafeB s a && keepsViolationsB a) = true) initialState acts) :
    (run acts).statistics.violationsDetected = (violTotal (run acts).analysisHistory : Int) :=
  (trace_preserve _ InvC2 invC2_step acts initialState h invC2_initial).1

/-- C2 witness. -/
theorem violationsDetected_eq_violTotal_of_safe_trace_witness :
    (run safeActsC2).statistics.violationsDetected
      = (violTotal (run safeActsC2).analysisHistory : Int) :=
  violationsDetected_eq_violTotal_of_safe_trace safeActsC2
    (Trace.cons (by decide) (Trace.cons (by decide) (Trace.cons (by decide)
      (Trace.cons (by decide) (Trace.cons (by decide) (Trace.nil _))))))

/-- C2 counterexample: after `violChangeActs` (an `updateAnalysis`
whose updates replace the violations list of the only record),
`statistics.violationsDetected` is 0 while the sum of violation-list
lengths is 1. -/
theorem violationsDetected_breaks_after_violations_update :
    (run violChangeActs).statistics.violationsDetected
      ≠ (violTotal (run violChangeActs).analysisHistory : Int) := by decide

theorem nonneg_step (s : State) (a : StoreAction)
    (h : NonnegStats s.statistics) : NonnegStats (step s a).statistics := by
  obtain ⟨ht, hv, hty⟩ := h
  cases a with
  | add genId now p =>
      refine ⟨?_, ?_, ?_⟩
      · rw [show (step s (StoreAction.add genId now p)).statistics.totalAnalyses
            = (addAnalysis genId now p s).statistics.totalAnalyses from rfl,
          addAnalysis_total]
        omega
      · rw [show (step s (StoreAction.add genId now p)).statistics.violationsDetected
            = (addAnalysis genId now p s).statistics.violationsDetected from rfl,
          addAnalysis_viol]
        omega
      · intro t
        rcases addAnalysis_types genId now p s t with heq | heq <;>
          rw [show (step s (StoreAction.add genId now p)).statistics.analysisTypes t
              = (addAnalysis genId now p s).statistics.analysisTypes t from rfl, heq] <;>
          have := hty t <;> omega
  | remove aid =>
      show NonnegStats (removeAnalysis aid s).statistics
      cases hf : s.analysisHistory.find? (fun a => a.id = aid) with
      | none => rw [removeAnalysis_noop aid s hf]; exact ⟨ht, hv, hty⟩
      | some A =>
          refine ⟨?_, ?_, ?_⟩
          · rw [removeAnalysis_total aid s A hf]; omega
          · rw [removeAnalysis_viol aid s A hf]; omega
          · intro t
            rcases removeAnalysis_types aid s A hf t with heq | ⟨heq, hnz⟩ <;>
              rw [heq] <;> have := hty t <;> omega
  | update aid u =>
      show NonnegStats (updateAnalysis aid u s).statistics
      cases hf : s.analysisHistory.find? (fun a => a.id = aid) with
      | none => rw [updateAnalysis_noop aid u s hf]; exact ⟨ht, hv, hty⟩
      | some old =>
          refine ⟨?_, ?_, ?_⟩
          · rw [updateAnalysis_total aid u s old hf]; exact ht
          · rw [updateAnalysis_viol aid u s old hf]; exact hv
          · intro t
            rw [updateAnalysis_types aid u s old hf]; exact hty t
  | clear =>
      refine ⟨?_, ?_, ?_⟩ <;> simp [step, clearHistory, initialStatistics]
  | setFilters nf => exact ⟨ht, hv, hty⟩
  | resetFilters => exact ⟨ht, hv, hty⟩
  | setSelected a0 => exact ⟨ht, hv, hty⟩
  | clearSelected => exact ⟨ht, hv, hty⟩
  | setLoading b => exact ⟨ht, hv, hty⟩
  | setError e => exact ⟨ht, hv, hty⟩
  | clearError => exact ⟨ht, hv, hty⟩

/-- C7: after every sequence of store actions from the initial state,
`statistics.totalAnalyses`, `statistics.violationsDetected` and every
entry of `statistics.analysisTypes` are greater than or equal to 0. -/
theorem statistics_counters_nonneg (acts : List StoreAction) :
    0 ≤ (run acts).statistics.totalAnalyses ∧
    0 ≤ (run acts).statistics.violationsDetected ∧
    ∀ t, 0 ≤ (run acts).statistics.analysisTypes t :=
  run_preserve (fun s => NonnegStats s.statistics) nonneg_step acts initialState
    (by refine ⟨?_, ?_, ?_⟩ <;> simp [initialState, initialStatistics])

/-- C3 evaluation at the failing input: adding a record whose
`confidence` is present but non-positive to a store with no positive
confidences divides `0` by `0`; `averageConfidence` becomes `NaN`
(modelled `none`), not the `0` the spec promises. -/
theorem averageConfidence_NaN_on_nonpositive_add :
    (addAnalysis "analysis_1" 0 { confidence := some 0 } initialState).statistics.averageConfidence
      = none := by decide

/-- C4 counterexample: a caller-supplied `id`/`timestamp` in the
partial record overrides the store-generated ones, because the source
spreads the caller fields after the generated ones. -/
theorem addAnalysis_caller_id_timestamp_override :
    (addAnalysis "analysis_gen" 7 { id := some "caller-id", timestamp := some 3 }
        initialState).analysisHistory
      = [{ id := "caller-id", timestamp := 3, type := none, confidence := none,
           status := none, violations := [] }] ∧
    ("caller-id" : String) ≠ "analysis_gen" ∧ (3 : Nat) ≠ 7 :=
  ⟨rfl, by decide, by decide⟩

/-- C4 (amended): for partial records without `id`/`timestamp` fields,
the inserted record carries the store-generated id and timestamp and
is prepended. -/
theorem addAnalysis_generated_identity_prepends (g : String) (n : Nat)
    (p : InputRecord) (s : State) (hid : p.id = none) (hts : p.timestamp = none) :
    (addAnalysis g n p s).analysisHistory = mkRecord g n p :: s.analysisHistory ∧
    (mkRecord g n p).id = g ∧ (mkRecord g n p).timestamp = n :=
  ⟨rfl, by simp [mkRecord, hid], by simp [mkRecord, hts]⟩

/-- C4 witness. -/
theorem addAnalysis_generated_identity_prepends_witness :
    (addAnalysis "analysis_7" 42 { confidence := some (1/2) } initialState).analysisHistory
      = mkRecord "analysis_7" 42 { confidence := some (1/2) } :: initialState.analysisHistory ∧
    (mkRecord "analysis_7" 42 { confidence := some (1/2) }).id = "analysis_7" ∧
    (mkRecord "analysis_7" 42 { confidence := some (1/2) }).timestamp = 42 :=
  addAnalysis_generated_identity_prepends "analysis_7" 42 _ initialState rfl rfl

/-- C5: `removeAnalysis` and `updateAnalysis` on an id that matches no
record return the state unchanged (every field). -/
theorem removeAnalysis_updateAnalysis_unknown_id_noop (s : State) (aid : String)
    (u : Updates) (h : ∀ a ∈ s.analysisHistory, a.id ≠ aid) :
    removeAnalysis aid s = s ∧ updateAnalysis aid u s = s := by
  have hf : s.analysisHistory.find? (fun a => a.id = aid) = none := by
    rw [List.find?_eq_none]
    intro a ha
    simpa using h a ha
  exact ⟨removeAnalysis_noop aid s hf, updateAnalysis_noop aid u s hf⟩

/-- C5 witness. -/
theorem removeAnalysis_updateAnalysis_unknown_id_noop_witness :
    removeAnalysis "missing" stateC5 = stateC5 ∧ updateAnalysis "missing" {} stateC5 = stateC5 :=
  removeAnalysis_updateAnalysis_unknown_id_noop stateC5 "missing" {} (by decide)

/-- C6 counterexample: an `updates` object carrying `id`/`timestamp`
keys overwrites them (shallow spread), so the updated record does not
retain its identity. -/
theorem updateAnalysis_can_change_id_timestamp :
    ((updateAnalysis "analysis_1" { id := some "forged", timestamp := some 99 }
        (addAnalysis "analysis_1" 10 {} initialState)).analysisHistory.map
      (fun a => (a.id, a.timestamp))) = [("forged", 99)] ∧
    ("forged", (99 : Nat)) ≠ ("analysis_1", (10 : Nat)) :=
  ⟨by decide, by decide⟩

/-- C6 (amended): for `updates` without `id`/`timestamp` keys, the
updated record keeps the id and timestamp it had before, and it is the
record `updateAnalysis` stores at the matched position. -/
theorem updateAnalysis_preserves_identity_without_keys (s : State) (aid : String)
    (u : Updates) (old : AnalysisRecord)
    (hfind : s.analysisHistory.find? (fun a => a.id = aid) = some old)
    (hid : u.id = none) (hts : u.timestamp = none) :
    (updateAnalysis aid u s).analysisHistory.find? (fun a => a.id = aid)
      = some (applyUpdates old u) ∧
    (applyUpdates old u).id = old.id ∧
    (applyUpdates old u).timestamp = old.timestamp := by
  have hpid : old.id = aid := by
    have := List.find?_some hfind
    simpa using this
  refine ⟨?_, by simp [applyUpdates, hid], by simp [applyUpdates, hts]⟩
  rw [updateAnalysis_history aid u s old hfind]
  refine find?_setFirst _ _ old _ hfind ?_
  simp [applyUpdates, hid, hpid]

/-- C6 witness. -/
theorem updateAnalysis_preserves_identity_without_keys_witness :
    (updateAnalysis "analysis_1" { status := some "reviewed" } stateC6).analysisHistory.find?
        (fun a => a.id = "analysis_1")
      = some (applyUpdates recC6 { status := some "reviewed" }) ∧
    (applyUpdates recC6 { status := some "reviewed" }).id = recC6.id ∧
    (applyUpdates recC6 { status := some "reviewed" }).timestamp = recC6.timestamp :=
  updateAnalysis_preserves_identity_without_keys stateC6 "analysis_1"
    { status := some "reviewed" } recC6 (by decide) rfl rfl

/-- C8: `getFilteredHistory` on the two-record scenario returns
`[1, 2]` for date/asc, `[1, 2]` for confidence/desc and `[2, 1]` for
status/asc. -/
theorem getFilteredHistory_sort_scenario :
    (getFilteredHistory (sortScenario "date" "asc")).map (fun a => a.id) = ["1", "2"] ∧
    (getFilteredHistory (sortScenario "confidence" "desc")).map (fun a => a.id) = ["1", "2"] ∧
    (getFilteredHistory (sortScenario "status" "asc")).map (fun a => a.id) = ["2", "1"] := by
  have hcmp : compare "fail" "pass" = Ordering.lt := rfl
  refine ⟨?_, ?_, ?_⟩ <;>
    simp [getFilteredHistory, sortScenario, sortFilters, sortRecordPass, sortRecordFail,
      sortByCmp, insertByCmp, sortComparison, confOrZero, localeCompare, hcmp] <;>
    norm_num

/-- C9: removing the selected record clears the selection; updating it
replaces the selection with the updated record; removing or updating a
record with a different id leaves the selection unchanged. -/
theorem selectedAnalysis_tracks_remove_update (s1 s2 : State) (X Y : AnalysisRecord)
    (u : Updates) (aid : String)
    (hsel1 : s1.selectedAnalysis = some X)
    (hfind1 : s1.analysisHistory.find? (fun a => a.id = X.id) = some X)
    (hsel2 : s2.selectedAnalysis = some Y)
    (hne : Y.id ≠ aid) :
    (removeAnalysis X.id s1).selectedAnalysis = none ∧
    (updateAnalysis X.id u s1).selectedAnalysis = some (applyUpdates X u) ∧
    (removeAnalysis aid s2).selectedAnalysis = some Y ∧
    (updateAnalysis aid u s2).selectedAnalysis = some Y := by
  refine ⟨?_, ?_, ?_, ?_⟩
  · rw [removeAnalysis_selected X.id s1 X hfind1, hsel1]
    simp
  · rw [updateAnalysis_selected X.id u s1 X hfind1, hsel1]
    simp
  · cases hf : s2.analysisHistory.find? (fun a => a.id = aid) with
    | none => rw [removeAnalysis_noop aid s2 hf]; exact hsel2
    | some A =>
        rw [removeAnalysis_selected aid s2 A hf, hsel2]
        simp [hne]
  · cases hf : s2.analysisHistory.find? (fun a => a.id = aid) with
    | none => rw [updateAnalysis_noop aid u s2 hf]; exact hsel2
    | some A =>
        rw [updateAnalysis_selected aid u s2 A hf, hsel2]
        simp [hne]

/-- C9 witness. -/
theorem selectedAnalysis_tracks_remove_update_witness :
    (removeAnalysis recC9.id stateC9).selectedAnalysis = none ∧
    (updateAnalysis recC9.id { confidence := some 2 } stateC9).selectedAnalysis
      = some (applyUpdates recC9 { confidence := some 2 }) ∧
    (removeAnalysis "analysis_1" stateC9b).selectedAnalysis = some recC9b ∧
    (updateAnalysis "analysis_1" { confidence := some 2 } stateC9b).selectedAnalysis
      = some recC9b :=
  selectedAnalysis_tracks_remove_update stateC9 stateC9b recC9 recC9b
    { confidence := some 2 } "analysis_1" rfl (by decide) rfl (by decide)

/-- C10: when the id occurs several times, `removeAnalysis` filters out
every record with that id, yet decrements `totalAnalyses` by exactly 1
and `violationsDetected` by the violation count of the first match only. -/
theorem removeAnalysis_duplicate_ids_behavior (s : State) (aid : String)
    (A : AnalysisRecord)
    (hfind : s.analysisHistory.find? (fun a => a.id = aid) = some A)
    (hdup : 2 ≤ (s.analysisHistory.filter (fun a => a.id = aid)).length)
    (htot : 1 ≤ s.statistics.totalAnalyses)
    (hviol : (A.violations.length : Int) ≤ s.statistics.violationsDetected) :
    (removeAnalysis aid s).analysisHistory
      = s.analysisHistory.filter (fun a => ¬ a.id = aid) ∧
    (removeAnalysis aid s).statistics.totalAnalyses = s.statistics.totalAnalyses - 1 ∧
    (removeAnalysis aid s).statistics.violationsDetected
      = s.statistics.violationsDetected - (A.violations.length : Int) := by
  refine ⟨removeAnalysis_history aid s A hfind, ?_, ?_⟩
  · rw [removeAnalysis_total aid s A hfind]
    omega
  · rw [removeAnalysis_viol aid s A hfind]
    omega

/-- C10 witness. -/
theorem removeAnalysis_duplicate_ids_behavior_witness :
    (removeAnalysis "dup" dupState).analysisHistory
      = dupState.analysisHistory.filter (fun a => ¬ a.id = "dup") ∧
    (removeAnalysis "dup" dupState).statistics.totalAnalyses
      = dupState.statistics.totalAnalyses - 1 ∧
    (removeAnalysis "dup" dupState).statistics.violationsDetected
      = dupState.statistics.violationsDetected - ((dupRec1.violations.length : Int)) :=
  removeAnalysis_duplicate_ids_behavior dupState "dup" dupRec1
    (by decide) (by decide) (by decide) (by decide)
